import Mathlib

/-!
Shallow embedding of the real-time simulation core of the `doomcrawler`
dungeon-crawler scene component (the Three.js `DungeonScene` file): axis-aligned
box collision, the movement controller `handleMovement` / `checkCollision`,
creature AI stepping `updateCreatures`, the projectile system
`updateProjectiles`, creature spawning `createShadowCreatures`, and the
deferred cleanup queue `processCleanupQueue`, together with theorems settling
the specification claims about them.

Modelling conventions:
* JavaScript numbers are embedded as rationals (`ℚ`); all constants in the
  source (`0.04`, `0.3`, `2.4`, ...) are exact decimal literals, so `ℚ`
  represents every value the relevant logic branches on exactly.
* `Math.sin` / `Math.cos` of the player angle are evaluated by the host math
  library; the movement controller reads them only as two numbers, so the
  embedding passes the evaluated pair `(sinA, cosA)` as parameters.
* `Math.sqrt` in the creature AI is likewise passed as an abstract oracle
  `sqrtO : ℚ → ℚ`; every theorem quantifying over the oracle in particular
  holds for the true square root.
* `THREE.Box3().setFromObject(projectile.mesh)` (the world bounding box of the
  rotated bolt mesh, computed inside the Three.js library) is passed as an
  abstract oracle `boxOf : Vec3 → Box3` applied to the bolt position.
* GPU resources (geometries, materials, point lights) are modelled as tagged
  identifiers; `dispose()` calls are recorded as lists of disposal actions.
* Purely cosmetic per-frame mutations that no modelled logic ever reads back
  (the creature body's vertical floating offset and the eye-material opacity
  pulse, and the camera head-bob height) are not carried in the state.
-/

namespace DoomCrawler

/-- A 3-component vector, mirroring `THREE.Vector3` with rational coordinates. -/
structure Vec3 where
  x : ℚ
  y : ℚ
  z : ℚ
  deriving DecidableEq, Repr

/-- Componentwise sum, mirroring `Vector3.add` (used by `position.add(velocity)`). -/
def Vec3.add (a b : Vec3) : Vec3 :=
  ⟨a.x + b.x, a.y + b.y, a.z + b.z⟩

/-- An axis-aligned bounding box, mirroring `THREE.Box3`. -/
structure Box3 where
  min : Vec3
  max : Vec3
  deriving DecidableEq, Repr

/-- Box intersection test, mirroring `THREE.Box3.intersectsBox`: the boxes are
disjoint exactly when they are separated along some axis by a strict
inequality, so touching boxes count as intersecting. -/
def Box3.intersectsBox (a b : Box3) : Bool :=
  !(b.max.x < a.min.x || b.min.x > a.max.x ||
    b.max.y < a.min.y || b.min.y > a.max.y ||
    b.max.z < a.min.z || b.min.z > a.max.z)

/-- A mesh's GPU-resource view: one geometry identifier and its material
identifiers (`mesh.material` may be a single material or an array; disposal
treats both uniformly, so the embedding stores a list). -/
structure Mesh where
  geometry : ℕ
  material : List ℕ
  deriving DecidableEq, Repr

/-- A disposal action recorded when the code calls `dispose()` on a resource.
Point lights have no disposal call in the source, but the constructor exists
so that "the light is never disposed" is expressible. -/
inductive Res where
  | geom (id : ℕ)
  | mat (id : ℕ)
  | lightRes (id : ℕ)
  deriving DecidableEq, Repr

/-- Disposal of one mesh: `geometry.dispose()` followed by disposing the
material (every element in the array case, the single material otherwise). -/
def disposeMesh (m : Mesh) : List Res :=
  Res.geom m.geometry :: m.material.map Res.mat

/-- An active creature, mirroring the entries of `creaturesRef.current`:
body/eye meshes and point light (as resource views), the world position of the
body (x and z; the y coordinate only carries the cosmetic floating bob), and
the collision box maintained by the AI step. -/
structure Creature where
  body : Mesh
  leftEye : Mesh
  rightEye : Mesh
  light : ℕ
  x : ℚ
  z : ℚ
  targetX : ℚ
  targetZ : ℚ
  collisionBox : Box3
  deriving DecidableEq, Repr

/-- An entry of `cleanupQueueRef.current`: the resource bundle of one
destroyed creature (body, eyes, and point light). -/
structure CleanupEntry where
  body : Mesh
  leftEye : Mesh
  rightEye : Mesh
  light : ℕ
  deriving DecidableEq, Repr

/-- The bundle pushed onto the cleanup queue for a destroyed creature
(`{ body: creature.body, leftEye: ..., rightEye: ..., light: ... }`). -/
def mkEntry (c : Creature) : CleanupEntry :=
  ⟨c.body, c.leftEye, c.rightEye, c.light⟩

/-- Player state, mirroring `playerRef.current`: `x` is the world x
coordinate and `y` holds the world z coordinate (the source reuses the field
name `y` for it). -/
structure Player where
  x : ℚ
  y : ℚ
  deriving DecidableEq, Repr

/-- The validation box built by `checkCollision` around a candidate player
position: half-extent 0.3 in x and z, height from 0 to 2. -/
def playerBox (newX newZ : ℚ) : Box3 :=
  ⟨⟨newX - 3/10, 0, newZ - 3/10⟩, ⟨newX + 3/10, 2, newZ + 3/10⟩⟩

/-- Collision test for a candidate player position, mirroring
`checkCollision(newX, newZ)`: true when the validation box intersects some
wall box or some living creature's collision box. -/
def checkCollision (walls : List Box3) (creatures : List Creature)
    (newX newZ : ℚ) : Bool :=
  walls.any (fun wallBox => (playerBox newX newZ).intersectsBox wallBox) ||
    creatures.any (fun c => (playerBox newX newZ).intersectsBox c.collisionBox)

/-- The held-key snapshot read by `handleMovement` (`keysRef.current`),
restricted to the keys the movement controller consults. -/
structure Keys where
  arrowUp : Bool
  arrowDown : Bool
  keyW : Bool
  keyS : Bool
  keyA : Bool
  keyD : Bool
  keyQ : Bool
  keyE : Bool
  shiftHeld : Bool
  deriving DecidableEq, Repr

/-- One candidate translation block of `handleMovement`: compute the candidate
pose `(p.x + dx, p.y + dz)`, and commit it only when `checkCollision` fails;
otherwise the player is left unchanged.  Both components of the displacement
are committed or rejected together by the single `checkCollision(newX, newZ)`
call. -/
def tryMove (walls : List Box3) (creatures : List Creature)
    (p : Player) (dx dz : ℚ) : Player :=
  if checkCollision walls creatures (p.x + dx) (p.y + dz) then p
  else { p with x := p.x + dx, y := p.y + dz }

/-- The `moveSpeed` constant of `handleMovement`: base speed 0.04, doubled
under the sprint modifier. -/
def moveSpeedOf (shiftHeld : Bool) : ℚ :=
  4/100 * (if shiftHeld then 2 else 1)

/-- One key's guarded translation block: the `tryMove` candidate is attempted
only while the block's key condition holds. -/
def moveBlock (walls : List Box3) (creatures : List Creature)
    (b : Bool) (dx dz : ℚ) (p : Player) : Player :=
  if b then tryMove walls creatures p dx dz else p

/-- The translation part of `handleMovement` (source lines 861-934): the six
key blocks run in source order (innermost application first: forward, back,
strafe-left/right while pointer-locked, strafe-left/right while unlocked),
each a `moveBlock` with the displacement the source computes from the
evaluated `(sinA, cosA)` of the player angle and the (possibly sprint-scaled)
move speed.  The turn-key section above it only mutates the angle, never the
position, and is reflected here by the caller passing the post-turn
`(sinA, cosA)`. -/
def handleMovement (walls : List Box3) (creatures : List Creature)
    (isLocked : Bool) (keys : Keys) (sinA cosA : ℚ) (p : Player) : Player :=
  moveBlock walls creatures (keys.keyE && !isLocked)
    (cosA * moveSpeedOf keys.shiftHeld) (-(sinA * moveSpeedOf keys.shiftHeld))
    (moveBlock walls creatures (keys.keyQ && !isLocked)
      (-(cosA * moveSpeedOf keys.shiftHeld)) (sinA * moveSpeedOf keys.shiftHeld)
      (moveBlock walls creatures (keys.keyD && isLocked)
        (cosA * moveSpeedOf keys.shiftHeld) (-(sinA * moveSpeedOf keys.shiftHeld))
        (moveBlock walls creatures (keys.keyA && isLocked)
          (-(cosA * moveSpeedOf keys.shiftHeld)) (sinA * moveSpeedOf keys.shiftHeld)
          (moveBlock walls creatures (keys.arrowDown || keys.keyS)
            (sinA * moveSpeedOf keys.shiftHeld) (cosA * moveSpeedOf keys.shiftHeld)
            (moveBlock walls creatures (keys.arrowUp || keys.keyW)
              (-(sinA * moveSpeedOf keys.shiftHeld))
              (-(cosA * moveSpeedOf keys.shiftHeld)) p)))))

/-- The disposal work `processCleanupQueue` performs on one dequeued entry:
the body and both eye meshes are disposed (geometry plus material(s)); the
entry's point light receives no disposal call anywhere in the body. -/
def disposeEntry (item : CleanupEntry) : List Res :=
  disposeMesh item.body ++ disposeMesh item.leftEye ++ disposeMesh item.rightEye

/-- One pass of the deferred cleanup queue, mirroring `processCleanupQueue`:
`splice(0, 2)` removes at most the first two entries from the front of the
queue and each removed entry is disposed via `disposeEntry`.  Returns the
remaining queue and the recorded disposal actions. -/
def processCleanupQueue (q : List CleanupEntry) : List CleanupEntry × List Res :=
  let itemsToClean := q.take 2
  (q.drop 2, itemsToClean.flatMap disposeEntry)

/-- The grid map: a matrix of cell codes (0 = floor, 1 = wall), as the
`mapData.walls` array of arrays. -/
abbrev Grid : Type := List (List ℕ)

/-- Width as the source reads it: `walls[0].length`. -/
def Grid.width (g : Grid) : ℕ := (List.headD g []).length

/-- Height as the source reads it: `walls.length`. -/
def Grid.height (g : Grid) : ℕ := List.length g

/-- Cell lookup `walls[row][col]` for integer indices, returning `none` when
an index is negative or past the end of the (row) list, as the corresponding
JavaScript access would yield `undefined`. -/
def Grid.cell? (g : Grid) (row col : ℤ) : Option ℕ :=
  if 0 ≤ row ∧ 0 ≤ col then
    (List.get? g row.toNat).bind fun r => List.get? r col.toNat
  else none

/-- World-to-grid inverse transform on one axis, as in `updateCreatures`:
`Math.floor((w + (len * cellSize) / 2) / cellSize)` with `cellSize = 2`. -/
def worldToGrid (len : ℕ) (w : ℚ) : ℤ :=
  ⌊(w + ((len : ℚ) * 2) / 2) / 2⌋

/-- The grid cell a world position `(wx, wz)` falls into: column index from x
and the grid width, row index from z and the grid height. -/
def Grid.cellAt (g : Grid) (wx wz : ℚ) : Option ℕ :=
  g.cell? (worldToGrid g.height wz) (worldToGrid g.width wx)

/-- The candidate AI step of one creature toward the player, mirroring the
beginning of the `updateCreatures` body: the distance to the player is
`Math.sqrt(dx*dx + dz*dz)` (the `sqrtO` oracle); inside the dead zone
(`distance <= 1.5`) there is no candidate, otherwise the candidate position
steps by `moveSpeed = 0.02` along the normalized direction. -/
def candidateStep (sqrtO : ℚ → ℚ) (playerX playerZ : ℚ) (c : Creature) :
    Option (ℚ × ℚ) :=
  let dx := playerX - c.x
  let dz := playerZ - c.z
  let distance := sqrtO (dx * dx + dz * dz)
  if 3/2 < distance then
    let moveSpeed : ℚ := 2/100
    let dirX := dx / distance
    let dirZ := dz / distance
    some (c.x + dirX * moveSpeed, c.z + dirZ * moveSpeed)
  else none

/-- The collision box committed for a creature at `(newX, newZ)`:
`setFromCenterAndSize((newX, 0.8, newZ), (0.8, 1.6, 0.8))`, which also equals
the candidate box built for the wall test. -/
def creatureBoxAt (newX newZ : ℚ) : Box3 :=
  ⟨⟨newX - 2/5, 0, newZ - 2/5⟩, ⟨newX + 2/5, 8/5, newZ + 2/5⟩⟩

/-- One creature's AI step, mirroring the body of the `updateCreatures` loop:
the candidate position is accepted only if its grid cell is in bounds and a
floor cell (out-of-bounds indices short-circuit to rejection, never to an
index error) and the candidate box intersects no static wall box; on
acceptance the position and collision box are committed, otherwise the
creature is unchanged. -/
def updateCreature (g : Grid) (wallBoxes : List Box3) (sqrtO : ℚ → ℚ)
    (playerX playerZ : ℚ) (c : Creature) : Creature :=
  match candidateStep sqrtO playerX playerZ c with
  | none => c
  | some (newX, newZ) =>
    if 0 ≤ worldToGrid g.width newX ∧ worldToGrid g.width newX < (g.width : ℤ) ∧
        0 ≤ worldToGrid g.height newZ ∧ worldToGrid g.height newZ < (g.height : ℤ) ∧
        g.cell? (worldToGrid g.height newZ) (worldToGrid g.width newX) = some 0 then
      if !wallBoxes.any (fun wallBox => (creatureBoxAt newX newZ).intersectsBox wallBox) then
        { c with x := newX, z := newZ, collisionBox := creatureBoxAt newX newZ }
      else c
    else c

/-- The per-frame creature AI pass, mirroring `updateCreatures`: every
creature in the pool steps (the cosmetic floating/eye-pulse mutations touch
no field the logic reads back). -/
def updateCreatures (g : Grid) (wallBoxes : List Box3) (sqrtO : ℚ → ℚ)
    (playerX playerZ : ℚ) (creatures : List Creature) : List Creature :=
  creatures.map (updateCreature g wallBoxes sqrtO playerX playerZ)

/-- An active projectile, mirroring the entries of `projectilesRef.current`:
the bolt mesh's resource view and position, its velocity, and the remaining
life in frames (an integer, decremented every update). -/
structure Projectile where
  mesh : Mesh
  pos : Vec3
  velocity : Vec3
  life : ℤ
  deriving DecidableEq, Repr

/-- The projectile spawned by `shoot`: positioned at the camera (shifted down
0.2), velocity = facing direction scaled by 0.8, and `life = 100`. -/
def shootProjectile (mesh : Mesh) (cameraPos direction : Vec3) : Projectile :=
  { mesh := mesh
    pos := ⟨cameraPos.x, cameraPos.y - 2/10, cameraPos.z⟩
    velocity := ⟨direction.x * 8/10, direction.y * 8/10, direction.z * 8/10⟩
    life := 100 }

/-- The creature-hit scan of `updateProjectiles` for one projectile box: the
source iterates the creature array from the last index down to 0 and breaks at
the first intersecting creature, removing it from the array and pushing its
resource bundle onto the cleanup queue.  Recursively: the tail (the higher
indices) is scanned first; only if it had no hit is the head tested.  Returns
the hit flag, the surviving creature list, and the enqueued bundles. -/
def creatureScan (pbox : Box3) :
    List Creature → Bool × List Creature × List CleanupEntry
  | [] => (false, [], [])
  | c :: rest =>
    match creatureScan pbox rest with
    | (true, rest', enq) => (true, c :: rest', enq)
    | (false, _, _) =>
      if pbox.intersectsBox c.collisionBox then (true, rest, [mkEntry c])
      else (false, c :: rest, [])

/-- The result of one `updateProjectiles` pass: the surviving projectiles, the
surviving creatures, the creature resource bundles pushed onto the cleanup
queue, and the disposal actions performed immediately on retired projectiles'
own meshes. -/
structure ProjectilesResult where
  projectiles : List Projectile
  creatures : List Creature
  enqueued : List CleanupEntry
  freed : List Res
  deriving DecidableEq, Repr

/-- The per-frame projectile pass, mirroring `updateProjectiles`: each
projectile (in array order, threading the creature pool mutated by earlier
ones) advances by its velocity, decrements `life`, recomputes its world box
(the `boxOf` oracle standing for `Box3().setFromObject(mesh)`), tests the
walls, then scans the creatures; it is retired — dropped from the list with
its own mesh disposed immediately — exactly when it hit a wall, hit a
creature, or `life <= 0` after the decrement. -/
def updateProjectiles (wallBoxes : List Box3) (boxOf : Vec3 → Box3) :
    List Projectile → List Creature → ProjectilesResult
  | [], creatures => ⟨[], creatures, [], []⟩
  | p :: rest, creatures =>
    let pos' := p.pos.add p.velocity
    let life' := p.life - 1
    let projectileBox := boxOf pos'
    let hitWall := wallBoxes.any fun wallBox => projectileBox.intersectsBox wallBox
    let (hitCreature, creatures', enq) := creatureScan projectileBox creatures
    let restResult := updateProjectiles wallBoxes boxOf rest creatures'
    if hitWall || hitCreature || decide (life' ≤ 0) then
      { restResult with
          enqueued := enq ++ restResult.enqueued
          freed := disposeMesh p.mesh ++ restResult.freed }
    else
      { restResult with
          projectiles := { p with pos := pos', life := life' } :: restResult.projectiles
          enqueued := enq ++ restResult.enqueued }

/-- The open (floor) cells of the grid in world coordinates, in row-major
scan order, as collected by `createShadowCreatures`:
`((col - width/2) * cellSize, (row - height/2) * cellSize)` with
`cellSize = 2`. -/
def openSpaces (g : Grid) : List (ℚ × ℚ) :=
  (List.enum g).flatMap fun rc =>
    (List.enum rc.2).filterMap fun cc =>
      if cc.2 = 0 then
        some (((cc.1 : ℚ) - (g.width : ℚ) / 2) * 2,
              ((rc.1 : ℚ) - (g.height : ℚ) / 2) * 2)
      else none

/-- The creature count formula of `createShadowCreatures`:
`Math.min(5, Math.max(3, Math.floor(openSpaces.length / 10)))`. -/
def numCreatures (openCount : ℕ) : ℕ :=
  min 5 (max 3 (openCount / 10))

/-- A freshly spawned creature at a floor-cell position, with its initial
collision box `Box3((x-0.4, 0, z-0.4), (x+0.4, 1.6, z+0.4))`; the resource
identifiers of its newly allocated meshes and light are irrelevant to the
modelled claims and are taken as 0. -/
def mkCreature (pos : ℚ × ℚ) : Creature :=
  { body := ⟨0, [0]⟩, leftEye := ⟨0, [0]⟩, rightEye := ⟨0, [0]⟩, light := 0
    x := pos.1, z := pos.2, targetX := pos.1, targetZ := pos.2
    collisionBox := ⟨⟨pos.1 - 2/5, 0, pos.2 - 2/5⟩, ⟨pos.1 + 2/5, 8/5, pos.2 + 2/5⟩⟩ }

/-- The spawn loop of `createShadowCreatures` over the shuffled floor-cell
list: `for (i = 0; i < numCreatures; i++)` reads `shuffledSpaces[i]` and
skips the iteration (`if (!pos) continue`) when the index is past the end of
the list; otherwise it creates one creature there.  The random shuffle is a
permutation of `openSpaces`, passed here as the already-shuffled list. -/
def createShadowCreatures (openCount : ℕ) (shuffledSpaces : List (ℚ × ℚ)) :
    List Creature :=
  (List.range (numCreatures openCount)).filterMap fun i =>
    (List.get? shuffledSpaces i).map mkCreature

/-- The mutable simulation state one `animate` tick works on. -/
structure GameState where
  grid : Grid
  wallBoxes : List Box3
  player : Player
  creatures : List Creature
  projectiles : List Projectile
  cleanupQueue : List CleanupEntry
  deriving DecidableEq, Repr

/-- What one frame did to resources: the creature bundles enqueued by the
projectile pass, the actions disposed by this same frame's cleanup pass, and
the projectile meshes freed immediately. -/
structure FrameLog where
  enqueued : List CleanupEntry
  disposed : List Res
  freed : List Res
  deriving DecidableEq, Repr

/-- One tick of the `animate` loop in its fixed order:
`handleMovement` then `updateProjectiles` then `updateCreatures` then
`processCleanupQueue` (the draw call has no simulation effect).  Note that the
cleanup pass of a frame drains the queue *after* the same frame's projectile
pass has pushed onto it. -/
def animateFrame (isLocked : Bool) (keys : Keys) (sinA cosA : ℚ)
    (sqrtO : ℚ → ℚ) (boxOf : Vec3 → Box3) (s : GameState) :
    GameState × FrameLog :=
  let player' := handleMovement s.wallBoxes s.creatures isLocked keys sinA cosA s.player
  let pr := updateProjectiles s.wallBoxes boxOf s.projectiles s.creatures
  let creatures' := updateCreatures s.grid s.wallBoxes sqrtO player'.x player'.y pr.creatures
  let (queue', disposed) := processCleanupQueue (s.cleanupQueue ++ pr.enqueued)
  ({ s with player := player', creatures := creatures',
            projectiles := pr.projectiles, cleanupQueue := queue' },
   ⟨pr.enqueued, disposed, pr.freed⟩)

/-- Modelled from the spec: the axis-independent translation semantics claimed
for the Movement Controller, in which each candidate translation's two
horizontal components are validated and applied independently ("the component
of motion along one axis may still be applied while the other is rejected, so
the player can slide along walls").  The x displacement is validated and
committed on its own, then the z displacement likewise. -/
def tryMoveAxisWise (walls : List Box3) (creatures : List Creature)
    (p : Player) (dx dz : ℚ) : Player :=
  let p1 := if checkCollision walls creatures (p.x + dx) p.y then p
    else { p with x := p.x + dx }
  if checkCollision walls creatures p1.x (p1.y + dz) then p1
  else { p1 with y := p1.y + dz }

/-- Key snapshot with only the forward key (KeyW) held. -/
def keysOnlyW : Keys :=
  ⟨false, false, true, false, false, false, false, false, false⟩

/-- Key snapshot with no relevant key held. -/
def noKeys : Keys :=
  ⟨false, false, false, false, false, false, false, false, false⟩

/-- A thin wall slab lying just beyond the reach of the player box at the
origin in the negative-z direction, spanning all x: it blocks any forward
move that decreases z past 0.01, but no pure x translation. -/
def thinSlab : Box3 :=
  ⟨⟨-10, 0, -32/100⟩, ⟨10, 24/10, -31/100⟩⟩

/-- The surviving-queue component of one cleanup pass. -/
def cleanupStep (q : List CleanupEntry) : List CleanupEntry :=
  (processCleanupQueue q).1

/-- The advanced form of a surviving projectile after one update: moved by its
velocity with `life` decremented. -/
def advance (p : Projectile) : Projectile :=
  { p with pos := p.pos.add p.velocity, life := p.life - 1 }

/-- The surviving-projectile component of one projectile pass through an
empty world (no walls, no creatures). -/
def flightStep (boxOf : Vec3 → Box3) (ps : List Projectile) : List Projectile :=
  (updateProjectiles [] boxOf ps []).projectiles

/-- A concrete stand-in for the bolt mesh's world box: a small box around the
bolt position. -/
def pointBox (v : Vec3) : Box3 :=
  ⟨⟨v.x - 1/10, 0, v.z - 1/10⟩, ⟨v.x + 1/10, 1, v.z + 1/10⟩⟩

/-- A concrete creature standing at the origin with distinct resource
identifiers. -/
def originCreature : Creature :=
  ⟨⟨1, [2]⟩, ⟨3, [4]⟩, ⟨5, [6]⟩, 7, 0, 0, 0, 0, creatureBoxAt 0 0⟩

/-- A concrete game state holding one creature at the origin, one projectile
about to hit it, and an empty cleanup queue. -/
def oneHitState : GameState :=
  { grid := [[0]]
    wallBoxes := []
    player := ⟨0, 0⟩
    creatures := [originCreature]
    projectiles := [⟨⟨8, [9]⟩, ⟨0, 0, 0⟩, ⟨0, 0, 0⟩, 50⟩]
    cleanupQueue := [] }

/-- A concrete cleanup bundle family with distinct resource identifiers. -/
def sampleEntry (n : ℕ) : CleanupEntry :=
  ⟨⟨10 * n, [10 * n + 1]⟩, ⟨10 * n + 2, [10 * n + 3]⟩,
   ⟨10 * n + 4, [10 * n + 5]⟩, 10 * n + 6⟩

/-- The one-hit state with three cleanup entries already pending in the
queue. -/
def backlogState : GameState :=
  { oneHitState with cleanupQueue := [sampleEntry 4, sampleEntry 5, sampleEntry 6] }

section MovementTheorems

/-- Unfolding of a failed collision test into its two quantified parts. -/
theorem checkCollision_eq_false_iff (walls : List Box3) (creatures : List Creature)
    (x z : ℚ) :
    checkCollision walls creatures x z = false ↔
      (∀ w ∈ walls, (playerBox x z).intersectsBox w = false) ∧
      (∀ c ∈ creatures, (playerBox x z).intersectsBox c.collisionBox = false) := by
  simp [checkCollision, List.any_eq_false]

/-- A single candidate block preserves a passing collision state: the result
of `tryMove` is either the unchanged pose or a pose that just passed the
test. -/
theorem tryMove_checkCollision {walls : List Box3} {creatures : List Creature}
    {p : Player} {dx dz : ℚ}
    (h : checkCollision walls creatures p.x p.y = false) :
    checkCollision walls creatures (tryMove walls creatures p dx dz).x
      (tryMove walls creatures p dx dz).y = false := by
  unfold tryMove
  split
  · exact h
  · next hc => simpa using hc

/-- A conditional candidate block (one key's branch of `handleMovement`)
preserves a passing collision state. -/
theorem moveBlock_checkCollision {walls : List Box3} {creatures : List Creature}
    {b : Bool} {p : Player} {dx dz : ℚ}
    (h : checkCollision walls creatures p.x p.y = false) :
    checkCollision walls creatures
      (moveBlock walls creatures b dx dz p).x
      (moveBlock walls creatures b dx dz p).y = false := by
  unfold moveBlock
  cases b
  · simpa using h
  · simpa using tryMove_checkCollision h

/-- The full movement controller preserves a passing collision state. -/
theorem handleMovement_checkCollision {walls : List Box3}
    {creatures : List Creature} {isLocked : Bool} {keys : Keys}
    {sinA cosA : ℚ} {p : Player}
    (h : checkCollision walls creatures p.x p.y = false) :
    checkCollision walls creatures
      (handleMovement walls creatures isLocked keys sinA cosA p).x
      (handleMovement walls creatures isLocked keys sinA cosA p).y = false := by
  unfold handleMovement
  exact moveBlock_checkCollision (moveBlock_checkCollision (moveBlock_checkCollision
    (moveBlock_checkCollision (moveBlock_checkCollision (moveBlock_checkCollision h)))))

/-- C3: no-clip invariant.  For every frame and every movement attempt, if the
player's position passed the collision test before the step, the position
produced by `handleMovement` has a validation box (half-extent 0.3 in x and z,
height 0 to 2) that intersects no static wall box and no living creature's
collision box. -/
theorem movement_noclip_invariant (walls : List Box3) (creatures : List Creature)
    (isLocked : Bool) (keys : Keys) (sinA cosA : ℚ) (p : Player)
    (h : checkCollision walls creatures p.x p.y = false) :
    (∀ w ∈ walls,
      (playerBox (handleMovement walls creatures isLocked keys sinA cosA p).x
        (handleMovement walls creatures isLocked keys sinA cosA p).y).intersectsBox w
        = false) ∧
    (∀ c ∈ creatures,
      (playerBox (handleMovement walls creatures isLocked keys sinA cosA p).x
        (handleMovement walls creatures isLocked keys sinA cosA p).y).intersectsBox
        c.collisionBox = false) :=
  (checkCollision_eq_false_iff _ _ _ _).mp (handleMovement_checkCollision h)

/-- Witness for C3 at a concrete input: the origin passes the test against the
thin slab, and the theorem applies there. -/
theorem movement_noclip_invariant_witness :
    checkCollision [thinSlab] [] (0 : ℚ) 0 = false ∧
    ((∀ w ∈ [thinSlab],
      (playerBox (handleMovement [thinSlab] [] false keysOnlyW (3/5) (4/5) ⟨0, 0⟩).x
        (handleMovement [thinSlab] [] false keysOnlyW (3/5) (4/5) ⟨0, 0⟩).y).intersectsBox w
        = false) ∧
    (∀ c ∈ ([] : List Creature),
      (playerBox (handleMovement [thinSlab] [] false keysOnlyW (3/5) (4/5) ⟨0, 0⟩).x
        (handleMovement [thinSlab] [] false keysOnlyW (3/5) (4/5) ⟨0, 0⟩).y).intersectsBox
        c.collisionBox = false)) :=
  ⟨by with_unfolding_all decide,
   movement_noclip_invariant [thinSlab] [] false keysOnlyW (3/5) (4/5) ⟨0, 0⟩
     (by with_unfolding_all decide)⟩

/-- C1 counterexample: with the forward key held toward the thin slab at an
angle with direction components (3/5, 4/5), the per-frame displacement is
(-3/125, -4/125); the combined candidate pose is blocked while the pose moved
only along x is free; the code rejects the whole vector and leaves the player
at the origin, whereas the axis-independent semantics claimed by the spec
(`tryMoveAxisWise`) would still apply the x component.  So the two axes are
not validated and applied independently. -/
theorem movement_axiswise_counterexample :
    checkCollision [thinSlab] [] (-(3/125)) (-(4/125)) = true ∧
    checkCollision [thinSlab] [] (-(3/125)) 0 = false ∧
    handleMovement [thinSlab] [] false keysOnlyW (3/5) (4/5) ⟨0, 0⟩ = ⟨0, 0⟩ ∧
    tryMoveAxisWise [thinSlab] [] ⟨0, 0⟩ (-(3/125)) (-(4/125)) = ⟨-(3/125), 0⟩ := by
  with_unfolding_all decide

/-- C1 amended: each held movement key's candidate translation is validated
as one combined (x, z) vector by a single `checkCollision` call.  For every
wall list, creature list, lock state, key set (sprint included), direction
pair, and pose: (1) any key block whose condition holds and whose combined
candidate is blocked leaves the pose unchanged — neither axis component is
applied; (2) every key block either leaves the pose unchanged or commits the
full two-component displacement after its single collision test; and (3)
`handleMovement` is exactly the composition of the six key blocks in source
order, so (1) and (2) cover each held movement key, with and without sprint.
Sliding can only arise from distinct keys' translations being processed
independently, never from per-axis evaluation of one translation. -/
theorem movement_blocked_vector_rejected (walls : List Box3)
    (creatures : List Creature) (isLocked : Bool) (keys : Keys)
    (sinA cosA : ℚ) (p : Player) :
    (∀ (b : Bool) (dx dz : ℚ) (q : Player), b = true →
      checkCollision walls creatures (q.x + dx) (q.y + dz) = true →
      moveBlock walls creatures b dx dz q = q) ∧
    (∀ (b : Bool) (dx dz : ℚ) (q : Player),
      moveBlock walls creatures b dx dz q = q ∨
      (b = true ∧ checkCollision walls creatures (q.x + dx) (q.y + dz) = false ∧
        moveBlock walls creatures b dx dz q = { x := q.x + dx, y := q.y + dz })) ∧
    handleMovement walls creatures isLocked keys sinA cosA p =
      moveBlock walls creatures (keys.keyE && !isLocked)
        (cosA * moveSpeedOf keys.shiftHeld) (-(sinA * moveSpeedOf keys.shiftHeld))
        (moveBlock walls creatures (keys.keyQ && !isLocked)
          (-(cosA * moveSpeedOf keys.shiftHeld)) (sinA * moveSpeedOf keys.shiftHeld)
          (moveBlock walls creatures (keys.keyD && isLocked)
            (cosA * moveSpeedOf keys.shiftHeld) (-(sinA * moveSpeedOf keys.shiftHeld))
            (moveBlock walls creatures (keys.keyA && isLocked)
              (-(cosA * moveSpeedOf keys.shiftHeld)) (sinA * moveSpeedOf keys.shiftHeld)
              (moveBlock walls creatures (keys.arrowDown || keys.keyS)
                (sinA * moveSpeedOf keys.shiftHeld) (cosA * moveSpeedOf keys.shiftHeld)
                (moveBlock walls creatures (keys.arrowUp || keys.keyW)
                  (-(sinA * moveSpeedOf keys.shiftHeld))
                  (-(cosA * moveSpeedOf keys.shiftHeld)) p))))) := by
  refine ⟨?_, ?_, rfl⟩
  · intro b dx dz q hb hblock
    subst hb
    unfold moveBlock
    rw [if_pos rfl]
    unfold tryMove
    rw [if_pos hblock]
  · intro b dx dz q
    cases b with
    | false =>
      left
      unfold moveBlock
      rw [if_neg Bool.false_ne_true]
    | true =>
      cases hcb : checkCollision walls creatures (q.x + dx) (q.y + dz) with
      | true =>
        left
        unfold moveBlock tryMove
        rw [if_pos rfl, if_pos hcb]
      | false =>
        right
        refine ⟨rfl, rfl, ?_⟩
        unfold moveBlock tryMove
        rw [if_pos rfl, if_neg (by simp [hcb])]

/-- Witness for the amended C1 at a concrete input: the slab world with the
forward key held at direction (3/5, 4/5); all three parts of the theorem hold
there. -/
theorem movement_blocked_vector_rejected_witness :
    (∀ (b : Bool) (dx dz : ℚ) (q : Player), b = true →
      checkCollision [thinSlab] [] (q.x + dx) (q.y + dz) = true →
      moveBlock [thinSlab] [] b dx dz q = q) ∧
    (∀ (b : Bool) (dx dz : ℚ) (q : Player),
      moveBlock [thinSlab] [] b dx dz q = q ∨
      (b = true ∧ checkCollision [thinSlab] [] (q.x + dx) (q.y + dz) = false ∧
        moveBlock [thinSlab] [] b dx dz q = { x := q.x + dx, y := q.y + dz })) ∧
    handleMovement [thinSlab] [] false keysOnlyW (3/5) (4/5) ⟨0, 0⟩ =
      moveBlock [thinSlab] [] (keysOnlyW.keyE && !false)
        (4/5 * moveSpeedOf keysOnlyW.shiftHeld)
        (-(3/5 * moveSpeedOf keysOnlyW.shiftHeld))
        (moveBlock [thinSlab] [] (keysOnlyW.keyQ && !false)
          (-(4/5 * moveSpeedOf keysOnlyW.shiftHeld))
          (3/5 * moveSpeedOf keysOnlyW.shiftHeld)
          (moveBlock [thinSlab] [] (keysOnlyW.keyD && false)
            (4/5 * moveSpeedOf keysOnlyW.shiftHeld)
            (-(3/5 * moveSpeedOf keysOnlyW.shiftHeld))
            (moveBlock [thinSlab] [] (keysOnlyW.keyA && false)
              (-(4/5 * moveSpeedOf keysOnlyW.shiftHeld))
              (3/5 * moveSpeedOf keysOnlyW.shiftHeld)
              (moveBlock [thinSlab] [] (keysOnlyW.arrowDown || keysOnlyW.keyS)
                (3/5 * moveSpeedOf keysOnlyW.shiftHeld)
                (4/5 * moveSpeedOf keysOnlyW.shiftHeld)
                (moveBlock [thinSlab] [] (keysOnlyW.arrowUp || keysOnlyW.keyW)
                  (-(3/5 * moveSpeedOf keysOnlyW.shiftHeld))
                  (-(4/5 * moveSpeedOf keysOnlyW.shiftHeld)) ⟨0, 0⟩))))) :=
  movement_blocked_vector_rejected [thinSlab] [] false keysOnlyW (3/5) (4/5) ⟨0, 0⟩

end MovementTheorems

section CleanupTheorems

/-- Iterating cleanup passes drops two entries from the front each time. -/
theorem cleanupStep_iterate (k : ℕ) (q : List CleanupEntry) :
    cleanupStep^[k] q = q.drop (2 * k) := by
  induction k generalizing q with
  | zero => simp
  | succ n ih =>
    rw [Function.iterate_succ_apply, ih]
    show (q.drop 2).drop (2 * n) = q.drop (2 * (n + 1))
    rw [List.drop_drop]
    congr 1
    omega

/-- C6: each cleanup pass releases at most 2 entries, taken from the front of
the queue in FIFO order (the drained entries are exactly the first two, the
survivors exactly the rest), and a queue of N entries with no new enqueues
becomes empty after exactly ceil(N/2) passes: empty at pass ceil(N/2), not
empty at any earlier pass. -/
theorem cleanup_queue_drain (q : List CleanupEntry) (N : ℕ) (h : q.length = N) :
    (processCleanupQueue q).2 = (q.take 2).flatMap disposeEntry ∧
    (q.take 2).length ≤ 2 ∧
    (processCleanupQueue q).1 = q.drop 2 ∧
    cleanupStep^[(N + 1) / 2] q = [] ∧
    (∀ k, k < (N + 1) / 2 → cleanupStep^[k] q ≠ []) := by
  refine ⟨rfl, ?_, rfl, ?_, ?_⟩
  · rw [List.length_take]
    exact min_le_left _ _
  · rw [cleanupStep_iterate]
    apply List.drop_eq_nil_of_le
    omega
  · intro k hk hnil
    rw [cleanupStep_iterate] at hnil
    have hlen := congrArg List.length hnil
    rw [List.length_drop, h] at hlen
    simp at hlen
    omega

/-- Witness for C6 on a concrete three-entry queue: ceil(3/2) = 2 passes drain
it, and it is nonempty before that. -/
theorem cleanup_queue_drain_witness :
    ([sampleEntry 0, sampleEntry 1, sampleEntry 2].length = 3) ∧
    ((processCleanupQueue [sampleEntry 0, sampleEntry 1, sampleEntry 2]).2 =
      ([sampleEntry 0, sampleEntry 1, sampleEntry 2].take 2).flatMap disposeEntry ∧
    ([sampleEntry 0, sampleEntry 1, sampleEntry 2].take 2).length ≤ 2 ∧
    (processCleanupQueue [sampleEntry 0, sampleEntry 1, sampleEntry 2]).1 =
      [sampleEntry 0, sampleEntry 1, sampleEntry 2].drop 2 ∧
    cleanupStep^[(3 + 1) / 2] [sampleEntry 0, sampleEntry 1, sampleEntry 2] = [] ∧
    (∀ k, k < (3 + 1) / 2 →
      cleanupStep^[k] [sampleEntry 0, sampleEntry 1, sampleEntry 2] ≠ [])) :=
  ⟨by decide, cleanup_queue_drain [sampleEntry 0, sampleEntry 1, sampleEntry 2] 3 (by decide)⟩

end CleanupTheorems

section ScanTheorems

/-- Full characterization of the reverse-order creature scan: a miss leaves
the pool and queue untouched and means no creature's box intersected; a hit
identifies one index whose creature intersected, is enqueued alone, and is
removed from the pool, while every later index (scanned earlier, since the
source iterates from the last index down) did not intersect. -/
theorem creatureScan_spec (pbox : Box3) (cs : List Creature) :
    ((creatureScan pbox cs).1 = false →
      creatureScan pbox cs = (false, cs, []) ∧
      ∀ c ∈ cs, pbox.intersectsBox c.collisionBox = false) ∧
    ((creatureScan pbox cs).1 = true →
      ∃ i c, List.get? cs i = some c ∧ pbox.intersectsBox c.collisionBox = true ∧
        (creatureScan pbox cs).2.2 = [mkEntry c] ∧
        (creatureScan pbox cs).2.1 = cs.eraseIdx i ∧
        ∀ j d, i < j → List.get? cs j = some d →
          pbox.intersectsBox d.collisionBox = false) := by
  induction cs with
  | nil =>
    refine ⟨fun _ => ⟨rfl, by simp⟩, fun h => ?_⟩
    simp [creatureScan] at h
  | cons c rest ih =>
    obtain ⟨ihf, iht⟩ := ih
    rcases hrec : creatureScan pbox rest with ⟨hit, rest', enq⟩
    rw [hrec] at ihf iht
    cases hit with
    | true =>
      have hval : creatureScan pbox (c :: rest) = (true, c :: rest', enq) := by
        simp [creatureScan, hrec]
      obtain ⟨i, d, hid, hint, henq, herase, hup⟩ := iht rfl
      refine ⟨fun hfalse => ?_, fun _ => ?_⟩
      · rw [hval] at hfalse
        simp at hfalse
      · refine ⟨i + 1, d, by simpa using hid, hint, ?_, ?_, ?_⟩
        · rw [hval]
          simpa using henq
        · rw [hval, List.eraseIdx_cons_succ]
          simp only at herase
          simp [herase]
        · intro j e hij hje
          cases j with
          | zero => omega
          | succ j' => exact hup j' e (by omega) (by simpa using hje)
    | false =>
      obtain ⟨hfeq, hnone⟩ := ihf rfl
      cases hcb : pbox.intersectsBox c.collisionBox with
      | true =>
        have hval : creatureScan pbox (c :: rest) = (true, rest, [mkEntry c]) := by
          simp [creatureScan, hrec, hcb]
        refine ⟨fun hfalse => ?_, fun _ => ?_⟩
        · rw [hval] at hfalse
          simp at hfalse
        · refine ⟨0, c, rfl, hcb, ?_, ?_, ?_⟩
          · rw [hval]
          · rw [hval]
            rfl
          · intro j e hij hje
            cases j with
            | zero => omega
            | succ j' => exact hnone e (List.get?_mem (by simpa using hje))
      | false =>
        have hval : creatureScan pbox (c :: rest) = (false, c :: rest, []) := by
          simp [creatureScan, hrec, hcb]
        refine ⟨fun _ => ⟨by rw [hval], ?_⟩, fun htrue => ?_⟩
        · intro e he
          rcases List.mem_cons.mp he with h | h
          · rw [h]
            exact hcb
          · exact hnone e h
        · rw [hval] at htrue
          simp at htrue

/-- C5: for every projectile's creature test in a frame, at most one creature
is removed from the active pool and enqueued to the cleanup queue: the scan
(run once per projectile inside `updateProjectiles`) removes at most one
creature, shrinks the pool by at most one, and on a hit the removed creature
is the first intersecting one in reverse index order — every creature at a
larger index (scanned before it) did not intersect. -/
theorem projectile_kills_at_most_one (pbox : Box3) (cs : List Creature) :
    (creatureScan pbox cs).2.2.length ≤ 1 ∧
    cs.length ≤ (creatureScan pbox cs).2.1.length + 1 ∧
    ((creatureScan pbox cs).1 = true →
      ∃ i c, List.get? cs i = some c ∧ pbox.intersectsBox c.collisionBox = true ∧
        (creatureScan pbox cs).2.2 = [mkEntry c] ∧
        (creatureScan pbox cs).2.1 = cs.eraseIdx i ∧
        ∀ j d, i < j → List.get? cs j = some d →
          pbox.intersectsBox d.collisionBox = false) := by
  obtain ⟨hf, ht⟩ := creatureScan_spec pbox cs
  cases hh : (creatureScan pbox cs).1 with
  | false =>
    obtain ⟨heq, -⟩ := hf hh
    rw [heq]
    refine ⟨by simp, by simp, fun htrue => ?_⟩
    rw [heq] at hh
    exact absurd htrue (by simp [heq])
  | true =>
    obtain ⟨i, c, hic, hint, henq, herase, hup⟩ := ht hh
    refine ⟨by rw [henq]; exact le_refl 1, ?_, fun _ => ⟨i, c, hic, hint, henq, herase, hup⟩⟩
    rw [herase, List.length_eraseIdx]
    split <;> omega

/-- Witness for C5 on a concrete two-creature pool where the projectile box
overlaps both: exactly the higher-indexed creature is removed. -/
theorem projectile_kills_at_most_one_witness :
    (creatureScan (pointBox ⟨0, 0, 0⟩) [originCreature, originCreature]).2.2.length ≤ 1 ∧
    [originCreature, originCreature].length ≤
      (creatureScan (pointBox ⟨0, 0, 0⟩) [originCreature, originCreature]).2.1.length + 1 ∧
    ((creatureScan (pointBox ⟨0, 0, 0⟩) [originCreature, originCreature]).1 = true →
      ∃ i c, List.get? [originCreature, originCreature] i = some c ∧
        (pointBox ⟨0, 0, 0⟩).intersectsBox c.collisionBox = true ∧
        (creatureScan (pointBox ⟨0, 0, 0⟩) [originCreature, originCreature]).2.2 = [mkEntry c] ∧
        (creatureScan (pointBox ⟨0, 0, 0⟩) [originCreature, originCreature]).2.1 =
          [originCreature, originCreature].eraseIdx i ∧
        ∀ j d, i < j → List.get? [originCreature, originCreature] j = some d →
          (pointBox ⟨0, 0, 0⟩).intersectsBox d.collisionBox = false) :=
  projectile_kills_at_most_one (pointBox ⟨0, 0, 0⟩) [originCreature, originCreature]

end ScanTheorems

section LightTheorems

/-- C9: every entry drained by the cleanup pass has the geometry and the
material(s) of its body, left eye, and right eye disposed, but no disposal
action ever touches a point light: the drain output is exactly the per-entry
disposal of the first two queued entries, a light-resource action never
occurs in it, and every bundle enqueued by a projectile hit carries the hit
creature's light. -/
theorem cleanup_light_never_disposed (q : List CleanupEntry) (e : CleanupEntry)
    (pbox : Box3) (cs : List Creature) :
    ((processCleanupQueue q).2 = (q.take 2).flatMap disposeEntry) ∧
    (Res.geom e.body.geometry ∈ disposeEntry e ∧
     Res.geom e.leftEye.geometry ∈ disposeEntry e ∧
     Res.geom e.rightEye.geometry ∈ disposeEntry e ∧
     (∀ m ∈ e.body.material, Res.mat m ∈ disposeEntry e) ∧
     (∀ m ∈ e.leftEye.material, Res.mat m ∈ disposeEntry e) ∧
     (∀ m ∈ e.rightEye.material, Res.mat m ∈ disposeEntry e)) ∧
    (∀ n, Res.lightRes n ∉ disposeEntry e) ∧
    (∀ en ∈ (creatureScan pbox cs).2.2, ∃ c ∈ cs, en = mkEntry c ∧ en.light = c.light) := by
  refine ⟨rfl, ⟨?_, ?_, ?_, ?_, ?_, ?_⟩, ?_, ?_⟩
  · simp [disposeEntry, disposeMesh]
  · simp [disposeEntry, disposeMesh]
  · simp [disposeEntry, disposeMesh]
  · intro m hm
    simp [disposeEntry, disposeMesh, hm]
  · intro m hm
    simp [disposeEntry, disposeMesh, hm]
  · intro m hm
    simp [disposeEntry, disposeMesh, hm]
  · intro n
    simp [disposeEntry, disposeMesh]
  · intro en hen
    obtain ⟨hf, ht⟩ := creatureScan_spec pbox cs
    cases hh : (creatureScan pbox cs).1 with
    | false =>
      obtain ⟨heq, -⟩ := hf hh
      rw [heq] at hen
      simp at hen
    | true =>
      obtain ⟨i, c, hic, -, henq, -, -⟩ := ht hh
      rw [henq] at hen
      simp at hen
      exact ⟨c, List.get?_mem hic, hen, by simp [hen, mkEntry]⟩

/-- Witness for C9 at a concrete entry and scan input. -/
theorem cleanup_light_never_disposed_witness :
    ((processCleanupQueue [sampleEntry 3]).2 =
      ([sampleEntry 3].take 2).flatMap disposeEntry) ∧
    (Res.geom (sampleEntry 3).body.geometry ∈ disposeEntry (sampleEntry 3) ∧
     Res.geom (sampleEntry 3).leftEye.geometry ∈ disposeEntry (sampleEntry 3) ∧
     Res.geom (sampleEntry 3).rightEye.geometry ∈ disposeEntry (sampleEntry 3) ∧
     (∀ m ∈ (sampleEntry 3).body.material, Res.mat m ∈ disposeEntry (sampleEntry 3)) ∧
     (∀ m ∈ (sampleEntry 3).leftEye.material, Res.mat m ∈ disposeEntry (sampleEntry 3)) ∧
     (∀ m ∈ (sampleEntry 3).rightEye.material, Res.mat m ∈ disposeEntry (sampleEntry 3))) ∧
    (∀ n, Res.lightRes n ∉ disposeEntry (sampleEntry 3)) ∧
    (∀ en ∈ (creatureScan (pointBox ⟨0, 0, 0⟩) [originCreature]).2.2,
      ∃ c ∈ [originCreature], en = mkEntry c ∧ en.light = c.light) :=
  cleanup_light_never_disposed [sampleEntry 3] (sampleEntry 3)
    (pointBox ⟨0, 0, 0⟩) [originCreature]

end LightTheorems

section ProjectileTheorems

/-- One projectile pass through the empty world keeps the advanced projectile
exactly while its decremented life is still positive, and otherwise retires it
with its mesh disposed immediately. -/
theorem updateProjectiles_nil (boxOf : Vec3 → Box3) (p : Projectile) :
    updateProjectiles [] boxOf [p] [] =
      if p.life - 1 ≤ 0 then ⟨[], [], [], disposeMesh p.mesh⟩
      else ⟨[advance p], [], [], []⟩ := by
  simp only [updateProjectiles, creatureScan, List.any_nil]
  by_cases h : p.life - 1 ≤ 0
  · simp [h, advance]
  · simp [h, advance]

/-- In the empty world, iterating the projectile pass k times (while k is
below the initial life) leaves one projectile advanced k times with life
decremented k times. -/
theorem flightStep_iterate (boxOf : Vec3 → Box3) (k : ℕ) (p : Projectile)
    (hk : (k : ℤ) < p.life) :
    (flightStep boxOf)^[k] [p] =
      [⟨p.mesh, ⟨p.pos.x + k * p.velocity.x, p.pos.y + k * p.velocity.y,
        p.pos.z + k * p.velocity.z⟩, p.velocity, p.life - k⟩] := by
  induction k generalizing p with
  | zero => simp
  | succ n ih =>
    rw [Function.iterate_succ_apply]
    have hstep : flightStep boxOf [p] = [advance p] := by
      unfold flightStep
      rw [updateProjectiles_nil, if_neg (by push_cast at hk; omega)]
    rw [hstep, ih (advance p) (by simp only [advance]; push_cast at hk ⊢; omega)]
    have hx : ∀ a v : ℚ, a + v + (n : ℚ) * v = a + ((n + 1 : ℕ) : ℚ) * v := by
      intro a v
      push_cast
      ring
    have hlife : p.life - 1 - (n : ℤ) = p.life - ((n + 1 : ℕ) : ℤ) := by
      push_cast
      ring
    simp only [advance, Vec3.add]
    rw [hx, hx, hx, hlife]

/-- C7: a projectile is retired in a frame — removed from the active list with
its own mesh resources freed immediately — exactly when in that frame it
intersects a wall box, or its creature scan hit, or its remaining life is at
most 0 after the per-frame decrement; and a projectile spawned with life 100
and velocity magnitude 0.8 that never meets a wall or creature survives each
of the first 99 update frames and is retired exactly on the 100th, with
neither hit flag set (no wall available to hit and no creature removed or
enqueued). -/
theorem projectile_retirement (boxOf : Vec3 → Box3) (mesh : Mesh) (pos vel : Vec3)
    (hmag : vel.x * vel.x + vel.y * vel.y + vel.z * vel.z = 64/100) :
    (∀ (wallBoxes : List Box3) (cs : List Creature) (p : Projectile),
      updateProjectiles wallBoxes boxOf [p] cs =
        (if (wallBoxes.any fun w => (boxOf (p.pos.add p.velocity)).intersectsBox w) ||
            (creatureScan (boxOf (p.pos.add p.velocity)) cs).1 ||
            decide (p.life - 1 ≤ 0) then
          ⟨[], (creatureScan (boxOf (p.pos.add p.velocity)) cs).2.1,
           (creatureScan (boxOf (p.pos.add p.velocity)) cs).2.2, disposeMesh p.mesh⟩
        else
          ⟨[advance p], (creatureScan (boxOf (p.pos.add p.velocity)) cs).2.1,
           (creatureScan (boxOf (p.pos.add p.velocity)) cs).2.2, []⟩)) ∧
    (∀ k, k ≤ 99 → (flightStep boxOf)^[k] [⟨mesh, pos, vel, 100⟩] =
      [⟨mesh, ⟨pos.x + k * vel.x, pos.y + k * vel.y, pos.z + k * vel.z⟩,
        vel, 100 - k⟩]) ∧
    (flightStep boxOf)^[100] [⟨mesh, pos, vel, 100⟩] = [] ∧
    updateProjectiles [] boxOf ((flightStep boxOf)^[99] [⟨mesh, pos, vel, 100⟩]) [] =
      ⟨[], [], [], disposeMesh mesh⟩ := by
  have hflight : ∀ k : ℕ, k ≤ 99 → (flightStep boxOf)^[k] [(⟨mesh, pos, vel, 100⟩ : Projectile)] =
      [⟨mesh, ⟨pos.x + k * vel.x, pos.y + k * vel.y, pos.z + k * vel.z⟩, vel, 100 - k⟩] := by
    intro k hk
    exact flightStep_iterate boxOf k ⟨mesh, pos, vel, 100⟩ (by push_cast; omega)
  have h99 := hflight 99 (by omega)
  have hlast : updateProjectiles [] boxOf ((flightStep boxOf)^[99]
      [(⟨mesh, pos, vel, 100⟩ : Projectile)]) [] = ⟨[], [], [], disposeMesh mesh⟩ := by
    rw [h99, updateProjectiles_nil, if_pos (by norm_num)]
  refine ⟨?_, hflight, ?_, hlast⟩
  · intro wallBoxes cs p
    simp only [updateProjectiles]
    rcases hscan : creatureScan (boxOf (p.pos.add p.velocity)) cs with ⟨hit, cs', enq⟩
    by_cases hcond : ((wallBoxes.any fun w => (boxOf (p.pos.add p.velocity)).intersectsBox w) ||
        hit || decide (p.life - 1 ≤ 0)) = true
    · simp [hscan, hcond, advance]
    · have hc' : ((wallBoxes.any fun w => (boxOf (p.pos.add p.velocity)).intersectsBox w) ||
          hit || decide (p.life - 1 ≤ 0)) = false := by
        simpa using hcond
      simp [hscan, hc', advance]
  · rw [show (100 : ℕ) = 99 + 1 from rfl, Function.iterate_succ_apply', h99]
    unfold flightStep
    rw [updateProjectiles_nil, if_pos (by norm_num)]

/-- Witness for C7 at a concrete bolt: velocity (0, 0, -0.8) of magnitude 0.8,
fired into an empty world. -/
theorem projectile_retirement_witness :
    ((0 : ℚ) * 0 + (0 : ℚ) * 0 + (-(8/10) : ℚ) * (-(8/10)) = 64/100) ∧
    ((∀ (wallBoxes : List Box3) (cs : List Creature) (p : Projectile),
      updateProjectiles wallBoxes pointBox [p] cs =
        (if (wallBoxes.any fun w => (pointBox (p.pos.add p.velocity)).intersectsBox w) ||
            (creatureScan (pointBox (p.pos.add p.velocity)) cs).1 ||
            decide (p.life - 1 ≤ 0) then
          ⟨[], (creatureScan (pointBox (p.pos.add p.velocity)) cs).2.1,
           (creatureScan (pointBox (p.pos.add p.velocity)) cs).2.2, disposeMesh p.mesh⟩
        else
          ⟨[advance p], (creatureScan (pointBox (p.pos.add p.velocity)) cs).2.1,
           (creatureScan (pointBox (p.pos.add p.velocity)) cs).2.2, []⟩)) ∧
    (∀ k, k ≤ 99 → (flightStep pointBox)^[k] [⟨⟨8, [9]⟩, ⟨0, 0, 0⟩, ⟨0, 0, -(8/10)⟩, 100⟩] =
      [⟨⟨8, [9]⟩, ⟨0 + k * 0, 0 + k * 0, 0 + k * (-(8/10))⟩, ⟨0, 0, -(8/10)⟩, 100 - k⟩]) ∧
    (flightStep pointBox)^[100] [⟨⟨8, [9]⟩, ⟨0, 0, 0⟩, ⟨0, 0, -(8/10)⟩, 100⟩] = [] ∧
    updateProjectiles [] pointBox
      ((flightStep pointBox)^[99] [⟨⟨8, [9]⟩, ⟨0, 0, 0⟩, ⟨0, 0, -(8/10)⟩, 100⟩]) [] =
      ⟨[], [], [], disposeMesh ⟨8, [9]⟩⟩) :=
  ⟨by with_unfolding_all decide,
   projectile_retirement pointBox ⟨8, [9]⟩ ⟨0, 0, 0⟩ ⟨0, 0, -(8/10)⟩
     (by with_unfolding_all decide)⟩

end ProjectileTheorems

section FrameTheorems

/-- C2 counterexample: in a frame whose cleanup queue starts empty, the
creature removed by a projectile hit during that same frame's projectile pass
is enqueued and then drained by that same frame's cleanup pass, so its
geometry and material resources are released in the very frame of removal —
disposal is not deferred by a cleanup pass. -/
theorem same_frame_disposal_counterexample :
    (animateFrame false noKeys 0 1 (fun q => q) pointBox oneHitState).2.enqueued =
      [mkEntry originCreature] ∧
    (animateFrame false noKeys 0 1 (fun q => q) pointBox oneHitState).2.disposed =
      disposeEntry (mkEntry originCreature) ∧
    (animateFrame false noKeys 0 1 (fun q => q) pointBox oneHitState).1.creatures = [] := by
  with_unfolding_all decide

/-- C2 amended: a removed creature's resources may be released by the cleanup
pass of the very frame of removal (the pass runs later in the same tick and
drains the first two queue entries); whenever the pre-frame queue already
holds at least 2 entries, the frame's disposal output comes entirely from the
first two pre-existing entries, so the resources of every creature removed
during the frame are deferred to a later cleanup pass. -/
theorem removal_disposal_deferred_under_backlog (isLocked : Bool) (keys : Keys)
    (sinA cosA : ℚ) (sqrtO : ℚ → ℚ) (boxOf : Vec3 → Box3) (s : GameState)
    (h : 2 ≤ s.cleanupQueue.length) :
    (animateFrame isLocked keys sinA cosA sqrtO boxOf s).2.disposed =
      (s.cleanupQueue.take 2).flatMap disposeEntry := by
  simp only [animateFrame, processCleanupQueue]
  rw [List.take_append_of_le_length h]

/-- Witness for the amended C2: with three entries already queued, the frame
that kills a creature disposes only the first two pre-existing entries. -/
theorem removal_disposal_deferred_under_backlog_witness :
    2 ≤ backlogState.cleanupQueue.length ∧
    (animateFrame false noKeys 0 1 (fun q => q) pointBox backlogState).2.disposed =
      (backlogState.cleanupQueue.take 2).flatMap disposeEntry :=
  ⟨by decide,
   removal_disposal_deferred_under_backlog false noKeys 0 1 (fun q => q) pointBox
     backlogState (by decide)⟩

end FrameTheorems

section SpawnTheorems

/-- Counting lemma for the spawn loop: reading indices 0..m-1 of a list and
keeping the hits yields min m (length) elements. -/
theorem rangeGet_length {α β : Type} (m : ℕ) (l : List α) (f : α → β) :
    ((List.range m).filterMap fun i => (List.get? l i).map f).length = min m l.length := by
  induction m with
  | zero => simp
  | succ n ih =>
    rw [List.range_succ, List.filterMap_append, List.length_append, ih]
    by_cases h : n < l.length
    · have hgn : Option.map f (List.get? l n) = some (f (l.get ⟨n, h⟩)) := by
        rw [List.get?_eq_get h]
        rfl
      rw [@List.filterMap_cons_some ℕ β (fun i => Option.map f (List.get? l i)) n []
        (f (l.get ⟨n, h⟩)) hgn, List.filterMap_nil]
      simp only [List.length_cons, List.length_nil]
      omega
    · have hgn : Option.map f (List.get? l n) = none := by
        rw [List.get?_eq_none.mpr (le_of_not_lt h)]
        rfl
      rw [@List.filterMap_cons_none ℕ β (fun i => Option.map f (List.get? l i)) n [] hgn,
        List.filterMap_nil]
      simp only [List.length_nil]
      omega

/-- C8 counterexample: a map with a single floor cell spawns 1 creature, not
the clamped count clamp(floor(1/10), 3, 5) = 3: the spawn loop skips the two
sampled positions that do not exist. -/
theorem spawn_clamp_counterexample :
    (openSpaces [[1, 1], [1, 0]]).length = 1 ∧
    numCreatures (openSpaces [[1, 1], [1, 0]]).length = 3 ∧
    (createShadowCreatures (openSpaces [[1, 1], [1, 0]]).length
      (openSpaces [[1, 1], [1, 0]])).length = 1 := by
  with_unfolding_all decide

/-- C8 amended: the computed creature count is clamp(floor(openCellCount/10),
3, 5), and the number of creatures actually created equals it whenever the
map has at least 3 floor cells (in particular for every shuffle of the floor
cells of a 50-floor-cell map it is 5); on maps with fewer floor cells than
the clamp, fewer creatures are created (see the counterexample). -/
theorem spawn_count_clamped (g : Grid) (shuffled : List (ℚ × ℚ))
    (hlen : shuffled.length = (openSpaces g).length)
    (h3 : 3 ≤ (openSpaces g).length) :
    (createShadowCreatures (openSpaces g).length shuffled).length =
      numCreatures (openSpaces g).length ∧
    ((openSpaces g).length = 50 →
      (createShadowCreatures (openSpaces g).length shuffled).length = 5) := by
  have hle : numCreatures (openSpaces g).length ≤ (openSpaces g).length := by
    unfold numCreatures
    omega
  have hmain : (createShadowCreatures (openSpaces g).length shuffled).length =
      numCreatures (openSpaces g).length := by
    unfold createShadowCreatures
    rw [rangeGet_length, hlen, min_eq_left hle]
  refine ⟨hmain, fun h50 => ?_⟩
  rw [hmain, h50]
  decide

/-- Witness for the amended C8 on a 10 by 5 all-floor map with exactly 50
floor cells: 5 creatures are spawned. -/
theorem spawn_count_clamped_witness :
    (openSpaces (List.replicate 5 (List.replicate 10 0))).length =
      (openSpaces (List.replicate 5 (List.replicate 10 0))).length ∧
    3 ≤ (openSpaces (List.replicate 5 (List.replicate 10 0))).length ∧
    ((createShadowCreatures (openSpaces (List.replicate 5 (List.replicate 10 0))).length
        (openSpaces (List.replicate 5 (List.replicate 10 0)))).length =
      numCreatures (openSpaces (List.replicate 5 (List.replicate 10 0))).length ∧
    ((openSpaces (List.replicate 5 (List.replicate 10 0))).length = 50 →
      (createShadowCreatures (openSpaces (List.replicate 5 (List.replicate 10 0))).length
        (openSpaces (List.replicate 5 (List.replicate 10 0)))).length = 5)) :=
  ⟨rfl, by with_unfolding_all decide,
   spawn_count_clamped (List.replicate 5 (List.replicate 10 0))
     (openSpaces (List.replicate 5 (List.replicate 10 0))) rfl
     (by with_unfolding_all decide)⟩

/-- C10: for every map and every shuffle of its floor cells, the number of
creatures actually created equals min(clamp(floor(openCellCount/10), 3, 5),
openCellCount): the spawn loop skips sampled positions past the end of the
floor-cell list, which matters exactly when the floor-cell count is below the
clamp's lower bound of 3. -/
theorem creatures_spawned_min_of_open (g : Grid) (shuffled : List (ℚ × ℚ))
    (hlen : shuffled.length = (openSpaces g).length) :
    (createShadowCreatures (openSpaces g).length shuffled).length =
      min (numCreatures (openSpaces g).length) (openSpaces g).length := by
  unfold createShadowCreatures
  rw [rangeGet_length, hlen]

/-- Witness for C10 on the single-floor-cell map: min(3, 1) = 1 creature. -/
theorem creatures_spawned_min_of_open_witness :
    (openSpaces [[1, 1], [1, 0]]).length = (openSpaces [[1, 1], [1, 0]]).length ∧
    (createShadowCreatures (openSpaces [[1, 1], [1, 0]]).length
        (openSpaces [[1, 1], [1, 0]])).length =
      min (numCreatures (openSpaces [[1, 1], [1, 0]]).length)
        (openSpaces [[1, 1], [1, 0]]).length :=
  ⟨rfl, creatures_spawned_min_of_open [[1, 1], [1, 0]] (openSpaces [[1, 1], [1, 0]]) rfl⟩

end SpawnTheorems

section CreatureTheorems

/-- C4: a creature whose grid cell (derived from its position by the
world-to-grid inverse transform) is a FLOOR cell still sits on a FLOOR cell
after its AI step, whether the candidate step was accepted or rejected; and a
candidate step whose target cell lies outside the grid bounds is treated as
blocked — the creature's state is unchanged, with no out-of-bounds access
(the cell lookup is total, returning none outside the matrix). -/
theorem creature_stays_on_floor (g : Grid) (wallBoxes : List Box3)
    (sqrtO : ℚ → ℚ) (px pz : ℚ) (c : Creature)
    (h : g.cellAt c.x c.z = some 0) :
    g.cellAt (updateCreature g wallBoxes sqrtO px pz c).x
      (updateCreature g wallBoxes sqrtO px pz c).z = some 0 ∧
    (∀ nx nz, candidateStep sqrtO px pz c = some (nx, nz) →
      ¬(0 ≤ worldToGrid g.width nx ∧ worldToGrid g.width nx < (g.width : ℤ) ∧
        0 ≤ worldToGrid g.height nz ∧ worldToGrid g.height nz < (g.height : ℤ)) →
      updateCreature g wallBoxes sqrtO px pz c = c) := by
  constructor
  · cases hc : candidateStep sqrtO px pz c with
    | none =>
      simp only [updateCreature, hc]
      exact h
    | some nxz =>
      obtain ⟨nx, nz⟩ := nxz
      simp only [updateCreature, hc]
      split
      · next hguard =>
        split
        · exact hguard.2.2.2.2
        · exact h
      · exact h
  · intro nx nz hc hoob
    simp only [updateCreature, hc]
    rw [if_neg]
    intro hguard
    exact hoob ⟨hguard.1, hguard.2.1, hguard.2.2.1, hguard.2.2.2.1⟩

/-- Witness for C4: a creature on the floor cell of the 1 by 1 all-floor map,
with the player away so the creature pursues; the theorem applies with the
identity square-root oracle. -/
theorem creature_stays_on_floor_witness :
    Grid.cellAt [[0]] (mkCreature (-1, -1)).x (mkCreature (-1, -1)).z = some 0 ∧
    (Grid.cellAt [[0]]
      (updateCreature [[0]] [] (fun q => q) 0 0 (mkCreature (-1, -1))).x
      (updateCreature [[0]] [] (fun q => q) 0 0 (mkCreature (-1, -1))).z = some 0 ∧
    (∀ nx nz, candidateStep (fun q => q) 0 0 (mkCreature (-1, -1)) = some (nx, nz) →
      ¬(0 ≤ worldToGrid (Grid.width [[0]]) nx ∧
        worldToGrid (Grid.width [[0]]) nx < (Grid.width [[0]] : ℤ) ∧
        0 ≤ worldToGrid (Grid.height [[0]]) nz ∧
        worldToGrid (Grid.height [[0]]) nz < (Grid.height [[0]] : ℤ)) →
      updateCreature [[0]] [] (fun q => q) 0 0 (mkCreature (-1, -1)) =
        mkCreature (-1, -1))) :=
  ⟨by with_unfolding_all decide,
   creature_stays_on_floor [[0]] [] (fun q => q) 0 0 (mkCreature (-1, -1))
     (by with_unfolding_all decide)⟩

end CreatureTheorems

end DoomCrawler
